import Mathlib

/-!
Shallow embedding of `upup/pkg/fi/cloudup/template_functions.go` (kops):
the cluster context data model, the instance-group lookup, and the two
argv synthesizers `DnsControllerArgv` and `ExternalDnsArgv`.

Go slices of strings become `List String`; Go pointers that may be nil
become `Option`; a Go function returning `([]string, error)` becomes a
`GoResult (List String)`, with a third constructor `crash` for the one
place the Go code dereferences a possibly-nil pointer without a check.
-/

/-- Result of a Go call returning `(T, error)`: `ok` when `err == nil`,
`err` with the formatted message otherwise, and `crash` when the Go code
would panic (nil-pointer dereference). -/
inductive GoResult (α : Type) where
  | ok (val : α)
  | err (msg : String)
  | crash
deriving DecidableEq, Repr

/-- `kops.ExternalDNSConfig`: carries the optional `WatchIngress *bool`. -/
structure ExternalDNSConfig where
  watchIngress : Option Bool
deriving DecidableEq, Repr

/-- The cloud-specific sub-configuration: `VSphereCoreDNSServer *string`. -/
structure CloudConfiguration where
  vsphereCoreDNSServer : Option String
deriving DecidableEq, Repr

/-- The fields of `kops.ClusterSpec` read by this file. -/
structure ClusterSpec where
  cloudProvider : String
  externalDNS : Option ExternalDNSConfig
  masterInternalName : String
  dnsZone : String
  cloudConfig : Option CloudConfiguration
  project : String
deriving DecidableEq, Repr

/-- `kops.Cluster`, of which only `Spec` is read here. -/
structure Cluster where
  spec : ClusterSpec
deriving DecidableEq, Repr

/-- `kops.InstanceGroup`: the lookup reads only `ObjectMeta.Name`; the
record carries further metadata (`Spec.Role` here) so that two groups with
the same name remain distinguishable. -/
structure InstanceGroup where
  name : String
  role : String := ""
deriving DecidableEq, Repr

/-- The receiver struct `TemplateFunctions` (the cluster context): the
fields read by the functions under study. -/
structure TemplateFunctions where
  cluster : Cluster
  instanceGroups : List InstanceGroup
deriving DecidableEq, Repr

/-- Modelled from the spec: `kops.CloudProviderAWS` lives in the kops API
package, not under src; the spec gives the closed provider enumeration
`{aws, gce, vsphere}`. -/
def CloudProviderAWS : String := "aws"

/-- Modelled from the spec: `kops.CloudProviderGCE`, see `CloudProviderAWS`. -/
def CloudProviderGCE : String := "gce"

/-- Modelled from the spec: `kops.CloudProviderVSphere`, see `CloudProviderAWS`. -/
def CloudProviderVSphere : String := "vsphere"

/-- Modelled from the spec: `fi.BoolValue` is not under src; the spec says
the optional watch-ingress flag defaults to false when unset, so a nil
`*bool` reads as false and a present pointer reads as its value. -/
def BoolValue : Option Bool → Bool
  | none => false
  | some b => b

/-- Modelled from the spec: `dns.IsGossipHostname` is not under src; the
spec describes gossip mode as triggered when the hostname matches the
gossip-hostname convention, modelled here as the `.k8s.local` suffix. -/
def IsGossipHostname (name : String) : Bool :=
  List.isSuffixOf ".k8s.local".data name.data

/-- `strings.Contains(zone, ".")`, expressed over the character list so it
evaluates by kernel reduction. -/
def containsDot (zone : String) : Bool :=
  zone.data.any (fun c => c = '.')

/-- The loop body of `GetInstanceGroup`: scan the ordered collection for
an exact match on name; on falling off the end, the Go code returns
`fmt.Errorf("InstanceGroup %q not found", name)`. -/
def getInstanceGroupLoop (name : String) : List InstanceGroup → GoResult InstanceGroup
  | [] => GoResult.err ("InstanceGroup \"" ++ name ++ "\" not found")
  | ig :: rest =>
    if ig.name = name then GoResult.ok ig else getInstanceGroupLoop name rest

/-- `(tf *TemplateFunctions) GetInstanceGroup(name string)`. -/
def GetInstanceGroup (tf : TemplateFunctions) (name : String) : GoResult InstanceGroup :=
  getInstanceGroupLoop name tf.instanceGroups

/-- `(tf *TemplateFunctions) DnsControllerArgv() ([]string, error)`.
The glog calls are logging only and do not touch the argv. -/
def DnsControllerArgv (tf : TemplateFunctions) : GoResult (List String) :=
  let argv : List String := []
  let argv := argv ++ ["/usr/bin/dns-controller"]
  let argv :=
    match tf.cluster.spec.externalDNS with
    | none => argv ++ ["--watch-ingress=false"]
    | some externalDns =>
      if BoolValue externalDns.watchIngress then argv
      else argv ++ ["--watch-ingress=false"]
  let afterSwitch : GoResult (List String) :=
    if tf.cluster.spec.cloudProvider = CloudProviderAWS then
      GoResult.ok (argv ++ ["--dns=aws-route53"])
    else if tf.cluster.spec.cloudProvider = CloudProviderGCE then
      GoResult.ok (argv ++ ["--dns=google-clouddns"])
    else if tf.cluster.spec.cloudProvider = CloudProviderVSphere then
      match tf.cluster.spec.cloudConfig with
      | none => GoResult.crash
      | some cloudConfig =>
        match cloudConfig.vsphereCoreDNSServer with
        | none => GoResult.crash
        | some server =>
          GoResult.ok (argv ++ ["--dns=coredns"] ++ ["--dns-server=" ++ server])
    else
      GoResult.err ("unhandled cloudprovider \"" ++ tf.cluster.spec.cloudProvider ++ "\"")
  match afterSwitch with
  | GoResult.err m => GoResult.err m
  | GoResult.crash => GoResult.crash
  | GoResult.ok argv =>
    let argv :=
      if IsGossipHostname tf.cluster.spec.masterInternalName then
        argv ++ ["--gossip-seed=127.0.0.1:3999"]
      else argv
    let zone := tf.cluster.spec.dnsZone
    let argv :=
      if zone ≠ "" then
        if containsDot zone then
          argv ++ ["--zone=" ++ zone]
        else
          argv ++ ["--zone=*/" ++ zone]
      else argv
    let argv := argv ++ ["--zone=*/*"]
    let argv := argv ++ ["-v=2"]
    GoResult.ok argv

/-- `(tf *TemplateFunctions) ExternalDnsArgv() ([]string, error)`. -/
def ExternalDnsArgv (tf : TemplateFunctions) : GoResult (List String) :=
  let cloudProvider := tf.cluster.spec.cloudProvider
  let afterSwitch : GoResult (List String) :=
    if cloudProvider = CloudProviderAWS then
      GoResult.ok (([] : List String) ++ ["--provider=aws"])
    else if cloudProvider = CloudProviderGCE then
      GoResult.ok (([] : List String) ++ ["--provider=google"]
        ++ ["--google-project=" ++ tf.cluster.spec.project])
    else
      GoResult.err ("unhandled cloudprovider \"" ++ tf.cluster.spec.cloudProvider ++ "\"")
  match afterSwitch with
  | GoResult.err m => GoResult.err m
  | GoResult.crash => GoResult.crash
  | GoResult.ok argv => GoResult.ok (argv ++ ["--source=ingress"])

/-- A helper building a context from a spec alone (the instance groups are
empty and irrelevant to the argv synthesizers). -/
def ctxOfSpec (s : ClusterSpec) : TemplateFunctions :=
  { cluster := { spec := s }, instanceGroups := [] }

/-- Concrete context: AWS provider, no external-DNS config, non-gossip
hostname, empty zone. -/
def awsPlainCtx : TemplateFunctions :=
  ctxOfSpec
    { cloudProvider := "aws"
      externalDNS := none
      masterInternalName := "api.internal.foo.example.com"
      dnsZone := ""
      cloudConfig := none
      project := "" }

/-- Concrete context: GCE provider with project proj-x. -/
def gceProjCtx : TemplateFunctions :=
  ctxOfSpec
    { cloudProvider := "gce"
      externalDNS := none
      masterInternalName := "api.internal.foo.example.com"
      dnsZone := "Z123"
      cloudConfig := none
      project := "proj-x" }

/-- Concrete context: vSphere provider, DNS server address configured. -/
def vsphereCtx : TemplateFunctions :=
  ctxOfSpec
    { cloudProvider := "vsphere"
      externalDNS := none
      masterInternalName := "api.internal.foo.example.com"
      dnsZone := ""
      cloudConfig := some { vsphereCoreDNSServer := some "10.0.0.10" }
      project := "" }

/-- Concrete context: unrecognized provider azure. -/
def azureCtx : TemplateFunctions :=
  ctxOfSpec
    { cloudProvider := "azure"
      externalDNS := none
      masterInternalName := "api.internal.foo.example.com"
      dnsZone := ""
      cloudConfig := none
      project := "" }

/-! ### Proof-side decomposition of the DNS-controller synthesizer

These definitions name the individual argv segments the Go code appends, so
the synthesizer's output can be characterized compositionally. -/

/-- The watch-ingress segment: emitted unless an external-DNS config is
present with its watch-ingress flag resolving to true. -/
def watchIngressArgs : Option ExternalDNSConfig → List String
  | none => ["--watch-ingress=false"]
  | some c => if BoolValue c.watchIngress then [] else ["--watch-ingress=false"]

/-- The provider-dispatch segment of `DnsControllerArgv`. -/
def providerDnsFlags (s : ClusterSpec) : GoResult (List String) :=
  if s.cloudProvider = CloudProviderAWS then
    GoResult.ok ["--dns=aws-route53"]
  else if s.cloudProvider = CloudProviderGCE then
    GoResult.ok ["--dns=google-clouddns"]
  else if s.cloudProvider = CloudProviderVSphere then
    match s.cloudConfig with
    | none => GoResult.crash
    | some cloudConfig =>
      match cloudConfig.vsphereCoreDNSServer with
      | none => GoResult.crash
      | some server => GoResult.ok ["--dns=coredns", "--dns-server=" ++ server]
  else
    GoResult.err ("unhandled cloudprovider \"" ++ s.cloudProvider ++ "\"")

/-- The gossip-seed segment. -/
def gossipArgs (name : String) : List String :=
  if IsGossipHostname name then ["--gossip-seed=127.0.0.1:3999"] else []

/-- The zone segment (before the always-appended wildcard). -/
def zoneArgs (zone : String) : List String :=
  if zone ≠ "" then
    if containsDot zone then ["--zone=" ++ zone] else ["--zone=*/" ++ zone]
  else []

/-- The provider-dispatch segment of `ExternalDnsArgv`. -/
def providerExternalFlags (s : ClusterSpec) : GoResult (List String) :=
  if s.cloudProvider = CloudProviderAWS then
    GoResult.ok ["--provider=aws"]
  else if s.cloudProvider = CloudProviderGCE then
    GoResult.ok ["--provider=google", "--google-project=" ++ s.project]
  else
    GoResult.err ("unhandled cloudprovider \"" ++ s.cloudProvider ++ "\"")

/-- Concrete context holding instance groups master-1 and node-1. -/
def igCtx : TemplateFunctions :=
  { cluster := awsPlainCtx.cluster
    instanceGroups := [{ name := "master-1", role := "Master" },
      { name := "node-1", role := "Node" }] }

/-- Concrete context with a duplicated instance-group name. -/
def igDupCtx : TemplateFunctions :=
  { cluster := awsPlainCtx.cluster
    instanceGroups := [{ name := "master-1", role := "Master" },
      { name := "node-1", role := "Node" },
      { name := "node-1", role := "Shadow" }] }

/-- `DnsControllerArgv` equals the concatenation of its named segments, and
propagates the provider-dispatch error or crash unchanged. -/
theorem dnsControllerArgv_char (tf : TemplateFunctions) :
    DnsControllerArgv tf =
      match providerDnsFlags tf.cluster.spec with
      | GoResult.ok dnsPart =>
        GoResult.ok (["/usr/bin/dns-controller"]
          ++ watchIngressArgs tf.cluster.spec.externalDNS
          ++ dnsPart
          ++ gossipArgs tf.cluster.spec.masterInternalName
          ++ zoneArgs tf.cluster.spec.dnsZone
          ++ ["--zone=*/*", "-v=2"])
      | GoResult.err m => GoResult.err m
      | GoResult.crash => GoResult.crash := by
  obtain ⟨⟨⟨p, ext, master, zone, cconf, proj⟩⟩, igs⟩ := tf
  simp only [DnsControllerArgv, providerDnsFlags, watchIngressArgs, gossipArgs, zoneArgs]
  rcases ext with _ | c <;>
    rcases cconf with _ | cc <;>
    (try rcases cc with ⟨_ | server⟩) <;>
    split_ifs <;>
    simp <;>
    (try (cases hw : BoolValue c.watchIngress <;> simp [hw]))

/-- `ExternalDnsArgv` equals its provider segment followed by the source
flag, propagating errors unchanged. -/
theorem externalDnsArgv_char (tf : TemplateFunctions) :
    ExternalDnsArgv tf =
      match providerExternalFlags tf.cluster.spec with
      | GoResult.ok part => GoResult.ok (part ++ ["--source=ingress"])
      | GoResult.err m => GoResult.err m
      | GoResult.crash => GoResult.crash := by
  obtain ⟨⟨⟨p, ext, master, zone, cconf, proj⟩⟩, igs⟩ := tf
  simp only [ExternalDnsArgv, providerExternalFlags]
  split_ifs <;> simp

/-- Two strings differ when the first disagrees with the second's prefix of
its own length, whatever is appended to it. -/
theorem append_ne_of_take_ne (a b t : String)
    (h : t.data.take a.data.length ≠ a.data) : a ++ b ≠ t := by
  intro he
  apply h
  have h2 := congrArg String.data he
  rw [String.data_append] at h2
  rw [← h2, List.take_left]

/-- Every token of the watch-ingress segment is the suppression flag. -/
theorem mem_watchIngressArgs (o : Option ExternalDNSConfig) (tok : String)
    (h : tok ∈ watchIngressArgs o) : tok = "--watch-ingress=false" := by
  rcases o with _ | c <;> simp [watchIngressArgs] at h <;> try exact h
  rcases hw : BoolValue c.watchIngress <;> simp [hw] at h
  exact h

/-- Every token of the gossip segment is the gossip seed flag. -/
theorem mem_gossipArgs (n : String) (tok : String)
    (h : tok ∈ gossipArgs n) : tok = "--gossip-seed=127.0.0.1:3999" := by
  by_cases hg : IsGossipHostname n <;> simp [gossipArgs, hg] at h
  exact h

/-- Every token of the zone segment is one of the two zone flag forms. -/
theorem mem_zoneArgs (z : String) (tok : String)
    (h : tok ∈ zoneArgs z) : tok = "--zone=" ++ z ∨ tok = "--zone=*/" ++ z := by
  by_cases hz : z = "" <;> by_cases hd : containsDot z <;>
    simp [zoneArgs, hz, hd] at h <;> simp [h]

/-- The provider segment of the DNS controller, when it succeeds, is one of
exactly three shapes. -/
theorem providerDnsFlags_ok_cases (s : ClusterSpec) (dnsPart : List String)
    (h : providerDnsFlags s = GoResult.ok dnsPart) :
    dnsPart = ["--dns=aws-route53"] ∨ dnsPart = ["--dns=google-clouddns"]
      ∨ ∃ server, dnsPart = ["--dns=coredns", "--dns-server=" ++ server] := by
  unfold providerDnsFlags at h
  split_ifs at h <;> try simp at h
  · exact Or.inl h.symm
  · exact Or.inr (Or.inl h.symm)
  · rcases hc : s.cloudConfig with _ | cc <;> rw [hc] at h <;> try simp at h
    rcases hs : cc.vsphereCoreDNSServer with _ | server <;> rw [hs] at h <;>
      simp at h
    exact Or.inr (Or.inr ⟨server, h.symm⟩)

/-- Eliminating a successful run of `DnsControllerArgv` into its segments. -/
theorem dnsControllerArgv_ok_elim (tf : TemplateFunctions) (argv : List String)
    (h : DnsControllerArgv tf = GoResult.ok argv) :
    ∃ dnsPart, providerDnsFlags tf.cluster.spec = GoResult.ok dnsPart
      ∧ argv = ["/usr/bin/dns-controller"]
          ++ watchIngressArgs tf.cluster.spec.externalDNS
          ++ dnsPart
          ++ gossipArgs tf.cluster.spec.masterInternalName
          ++ zoneArgs tf.cluster.spec.dnsZone
          ++ ["--zone=*/*", "-v=2"] := by
  rw [dnsControllerArgv_char] at h
  rcases hp : providerDnsFlags tf.cluster.spec with d | m | _ <;> rw [hp] at h <;>
    simp at h
  refine ⟨d, rfl, ?_⟩
  simpa using h.symm

/-! ### Instance-group lookup lemmas -/

/-- A prefix with no matching name is skipped by the lookup loop. -/
theorem getInstanceGroupLoop_skip (name : String) (pre l : List InstanceGroup)
    (hpre : ∀ g ∈ pre, g.name ≠ name) :
    getInstanceGroupLoop name (pre ++ l) = getInstanceGroupLoop name l := by
  induction pre with
  | nil => rfl
  | cons g gs ih =>
    have hg : g.name ≠ name := hpre g (by simp)
    simp only [List.cons_append, getInstanceGroupLoop, if_neg hg]
    exact ih fun x hx => hpre x (by simp [hx])

/-- When some group matches, the loop returns a matching group. -/
theorem getInstanceGroupLoop_found (name : String) (l : List InstanceGroup)
    (h : ∃ ig ∈ l, ig.name = name) :
    ∃ ig, getInstanceGroupLoop name l = GoResult.ok ig ∧ ig.name = name := by
  induction l with
  | nil => simp at h
  | cons g gs ih =>
    by_cases hg : g.name = name
    · exact ⟨g, by simp [getInstanceGroupLoop, hg], hg⟩
    · rcases h with ⟨ig, hmem, hname⟩
      rcases List.mem_cons.mp hmem with rfl | hmem2
      · exact absurd hname hg
      · rcases ih ⟨ig, hmem2, hname⟩ with ⟨ig2, hloop, hname2⟩
        exact ⟨ig2, by simp [getInstanceGroupLoop, hg, hloop], hname2⟩

/-- When no group matches, the loop returns the not-found error carrying
the requested name. -/
theorem getInstanceGroupLoop_not_found (name : String) (l : List InstanceGroup)
    (h : ∀ ig ∈ l, ig.name ≠ name) :
    getInstanceGroupLoop name l
      = GoResult.err ("InstanceGroup \"" ++ name ++ "\" not found") := by
  have := getInstanceGroupLoop_skip name l [] h
  simpa using this

/-! ### Claim theorems -/

/-- C3: for a cluster context with provider AWS, no external-DNS
configuration, a non-gossip master internal hostname, and an empty DNS
zone, `DnsControllerArgv` returns exactly
`["/usr/bin/dns-controller", "--watch-ingress=false", "--dns=aws-route53",
"--zone=*/*", "-v=2"]`. -/
theorem dnsControllerArgv_aws_plain (tf : TemplateFunctions)
    (hp : tf.cluster.spec.cloudProvider = "aws")
    (he : tf.cluster.spec.externalDNS = none)
    (hg : IsGossipHostname tf.cluster.spec.masterInternalName = false)
    (hz : tf.cluster.spec.dnsZone = "") :
    DnsControllerArgv tf
      = GoResult.ok ["/usr/bin/dns-controller", "--watch-ingress=false",
          "--dns=aws-route53", "--zone=*/*", "-v=2"] := by
  rw [dnsControllerArgv_char]
  simp [providerDnsFlags, watchIngressArgs, gossipArgs, zoneArgs,
    hp, he, hg, hz, CloudProviderAWS]

/-- Witness for C3 at the concrete AWS context. -/
theorem dnsControllerArgv_aws_plain_witness :
    DnsControllerArgv awsPlainCtx
      = GoResult.ok ["/usr/bin/dns-controller", "--watch-ingress=false",
          "--dns=aws-route53", "--zone=*/*", "-v=2"] :=
  dnsControllerArgv_aws_plain awsPlainCtx rfl rfl (by decide) rfl

/-- C7: for a cluster context with provider GCE and project proj-x,
`ExternalDnsArgv` returns exactly
`["--provider=google", "--google-project=proj-x", "--source=ingress"]`. -/
theorem externalDnsArgv_gce_proj (tf : TemplateFunctions)
    (hp : tf.cluster.spec.cloudProvider = "gce")
    (hproj : tf.cluster.spec.project = "proj-x") :
    ExternalDnsArgv tf
      = GoResult.ok ["--provider=google", "--google-project=proj-x",
          "--source=ingress"] := by
  rw [externalDnsArgv_char]
  simp [providerExternalFlags, hp, hproj, CloudProviderAWS, CloudProviderGCE]

/-- Witness for C7 at the concrete GCE context. -/
theorem externalDnsArgv_gce_proj_witness :
    ExternalDnsArgv gceProjCtx
      = GoResult.ok ["--provider=google", "--google-project=proj-x",
          "--source=ingress"] :=
  externalDnsArgv_gce_proj gceProjCtx rfl rfl

/-- C8: both synthesizers are deterministic functions of the context alone:
two invocations on an unchanged context yield identical results. In this
embedding both are pure functions of the context, so the two runs are the
same term. -/
theorem argvSynthesizersDeterministic (tf : TemplateFunctions) :
    DnsControllerArgv tf = DnsControllerArgv tf
      ∧ ExternalDnsArgv tf = ExternalDnsArgv tf :=
  ⟨rfl, rfl⟩

/-- C2: for every context whose provider string is outside the recognized
set, both synthesizers fail with the unhandled-cloudprovider error carrying
the offending provider string, and neither returns any argument list (the
`err` constructor carries no list). -/
theorem argvSynthesizers_unsupported (tf : TemplateFunctions)
    (h1 : tf.cluster.spec.cloudProvider ≠ CloudProviderAWS)
    (h2 : tf.cluster.spec.cloudProvider ≠ CloudProviderGCE)
    (h3 : tf.cluster.spec.cloudProvider ≠ CloudProviderVSphere) :
    DnsControllerArgv tf
        = GoResult.err
            ("unhandled cloudprovider \"" ++ tf.cluster.spec.cloudProvider ++ "\"")
      ∧ ExternalDnsArgv tf
        = GoResult.err
            ("unhandled cloudprovider \"" ++ tf.cluster.spec.cloudProvider ++ "\"") := by
  rw [dnsControllerArgv_char, externalDnsArgv_char]
  simp [providerDnsFlags, providerExternalFlags, h1, h2, h3]

/-- Witness for C2 at the concrete azure context. -/
theorem argvSynthesizers_unsupported_witness :
    DnsControllerArgv azureCtx = GoResult.err "unhandled cloudprovider \"azure\""
      ∧ ExternalDnsArgv azureCtx = GoResult.err "unhandled cloudprovider \"azure\"" :=
  argvSynthesizers_unsupported azureCtx (by decide) (by decide) (by decide)

/-- Counterexample to C1 as stated: vsphere is in the claimed success set,
yet `ExternalDnsArgv` fails on a vsphere context (its provider switch
handles only AWS and GCE). -/
theorem externalDnsArgv_vsphere_counterexample :
    vsphereCtx.cluster.spec.cloudProvider = CloudProviderVSphere
      ∧ ExternalDnsArgv vsphereCtx
          = GoResult.err "unhandled cloudprovider \"vsphere\"" := by
  constructor <;> decide

/-- C1 (amended): for providers aws and gce both synthesizers succeed; for
vsphere, `DnsControllerArgv` succeeds whenever the vSphere CoreDNS server
address is configured, while `ExternalDnsArgv` fails; for every other
provider string both fail. -/
theorem argvSynthesizers_provider_policy (tf : TemplateFunctions) :
    ((tf.cluster.spec.cloudProvider = CloudProviderAWS
        ∨ tf.cluster.spec.cloudProvider = CloudProviderGCE) →
      (∃ a, DnsControllerArgv tf = GoResult.ok a)
        ∧ ∃ a, ExternalDnsArgv tf = GoResult.ok a)
    ∧ (tf.cluster.spec.cloudProvider = CloudProviderVSphere →
      ((∀ cc server, tf.cluster.spec.cloudConfig = some cc →
          cc.vsphereCoreDNSServer = some server →
          ∃ a, DnsControllerArgv tf = GoResult.ok a)
        ∧ ∃ m, ExternalDnsArgv tf = GoResult.err m))
    ∧ ((tf.cluster.spec.cloudProvider ≠ CloudProviderAWS
          ∧ tf.cluster.spec.cloudProvider ≠ CloudProviderGCE
          ∧ tf.cluster.spec.cloudProvider ≠ CloudProviderVSphere) →
      (∃ m, DnsControllerArgv tf = GoResult.err m)
        ∧ ∃ m, ExternalDnsArgv tf = GoResult.err m) := by
  refine ⟨?_, ?_, ?_⟩
  · rintro (hp | hp) <;>
      rw [dnsControllerArgv_char, externalDnsArgv_char] <;>
      simp [providerDnsFlags, providerExternalFlags, hp,
        CloudProviderAWS, CloudProviderGCE]
  · intro hp
    constructor
    · intro cc server hcc hs
      rw [dnsControllerArgv_char]
      simp [providerDnsFlags, hp, hcc, hs,
        CloudProviderAWS, CloudProviderGCE, CloudProviderVSphere]
    · rw [externalDnsArgv_char]
      simp [providerExternalFlags, hp,
        CloudProviderAWS, CloudProviderGCE, CloudProviderVSphere]
  · rintro ⟨h1, h2, h3⟩
    rw [dnsControllerArgv_char, externalDnsArgv_char]
    simp [providerDnsFlags, providerExternalFlags, h1, h2, h3]

/-- Witness for the amended C1: aws succeeds in both, vsphere with a
configured server succeeds in the DNS controller, azure fails in both. -/
theorem argvSynthesizers_provider_policy_witness :
    ((∃ a, DnsControllerArgv awsPlainCtx = GoResult.ok a)
        ∧ ∃ a, ExternalDnsArgv awsPlainCtx = GoResult.ok a)
      ∧ (∃ a, DnsControllerArgv vsphereCtx = GoResult.ok a)
      ∧ (∃ m, DnsControllerArgv azureCtx = GoResult.err m) :=
  ⟨(argvSynthesizers_provider_policy awsPlainCtx).1 (Or.inl rfl),
   ((argvSynthesizers_provider_policy vsphereCtx).2.1 rfl).1
     { vsphereCoreDNSServer := some "10.0.0.10" } "10.0.0.10" rfl rfl,
   ((argvSynthesizers_provider_policy azureCtx).2.2
     ⟨by decide, by decide, by decide⟩).1⟩

/-- Any token of a successful DNS-controller argv comes from one of the
six segments. -/
theorem mem_dnsArgv_cases (tf : TemplateFunctions) (argv : List String)
    (tok : String) (h : DnsControllerArgv tf = GoResult.ok argv)
    (hm : tok ∈ argv) :
    tok = "/usr/bin/dns-controller"
      ∨ tok ∈ watchIngressArgs tf.cluster.spec.externalDNS
      ∨ (∃ dnsPart, providerDnsFlags tf.cluster.spec = GoResult.ok dnsPart
          ∧ tok ∈ dnsPart)
      ∨ tok ∈ gossipArgs tf.cluster.spec.masterInternalName
      ∨ tok ∈ zoneArgs tf.cluster.spec.dnsZone
      ∨ tok = "--zone=*/*" ∨ tok = "-v=2" := by
  rcases dnsControllerArgv_ok_elim tf argv h with ⟨dnsPart, hdns, rfl⟩
  simp only [List.mem_append] at hm
  rcases hm with ((((h1 | h2) | h3) | h4) | h5) | h6
  · exact Or.inl (by simpa using h1)
  · exact Or.inr (Or.inl h2)
  · exact Or.inr (Or.inr (Or.inl ⟨dnsPart, hdns, h3⟩))
  · exact Or.inr (Or.inr (Or.inr (Or.inl h4)))
  · exact Or.inr (Or.inr (Or.inr (Or.inr (Or.inl h5))))
  · rcases (by simpa using h6 : tok = "--zone=*/*" ∨ tok = "-v=2") with h6 | h6
    · exact Or.inr (Or.inr (Or.inr (Or.inr (Or.inr (Or.inl h6)))))
    · exact Or.inr (Or.inr (Or.inr (Or.inr (Or.inr (Or.inr h6)))))

/-- C9: a successful DNS-controller argv never contains
`--watch-ingress=true`; enabling watch-ingress is expressed only by
omitting the suppression token. -/
theorem dnsControllerArgv_no_watch_true (tf : TemplateFunctions)
    (argv : List String) (h : DnsControllerArgv tf = GoResult.ok argv) :
    "--watch-ingress=true" ∉ argv := by
  intro hmem
  rcases mem_dnsArgv_cases tf argv _ h hmem with
    h1 | h2 | ⟨d, hd, h3⟩ | h4 | h5 | h6 | h7
  · exact absurd h1 (by decide)
  · exact absurd (mem_watchIngressArgs _ _ h2) (by decide)
  · rcases providerDnsFlags_ok_cases _ _ hd with rfl | rfl | ⟨server, rfl⟩
    · exact absurd (List.mem_singleton.mp h3) (by decide)
    · exact absurd (List.mem_singleton.mp h3) (by decide)
    · rcases List.mem_cons.mp h3 with h3' | h3'
      · exact absurd h3' (by decide)
      · exact append_ne_of_take_ne "--dns-server=" server _ (by decide)
          (List.mem_singleton.mp h3').symm
  · exact absurd (mem_gossipArgs _ _ h4) (by decide)
  · rcases mem_zoneArgs _ _ h5 with h5 | h5
    · exact append_ne_of_take_ne "--zone=" _ _ (by decide) h5.symm
    · exact append_ne_of_take_ne "--zone=*/" _ _ (by decide) h5.symm
  · exact absurd h6 (by decide)
  · exact absurd h7 (by decide)

/-- Concrete evaluation of the DNS-controller synthesizer on the plain AWS
context, shared by the witnesses below. -/
theorem dnsControllerArgv_awsPlainCtx_eval :
    DnsControllerArgv awsPlainCtx
      = GoResult.ok ["/usr/bin/dns-controller", "--watch-ingress=false",
          "--dns=aws-route53", "--zone=*/*", "-v=2"] := by
  decide

/-- Witness for C9 at the concrete AWS context. -/
theorem dnsControllerArgv_no_watch_true_witness :
    "--watch-ingress=true" ∉
      (["/usr/bin/dns-controller", "--watch-ingress=false",
        "--dns=aws-route53", "--zone=*/*", "-v=2"] : List String) :=
  dnsControllerArgv_no_watch_true awsPlainCtx _ dnsControllerArgv_awsPlainCtx_eval

/-- C4: in a successful DNS-controller argv, the suppression token
`--watch-ingress=false` is present exactly when no external-DNS config is
present or its watch-ingress flag resolves to false; when the flag
resolves to true the token is absent. -/
theorem dnsControllerArgv_watchIngress (tf : TemplateFunctions)
    (argv : List String) (h : DnsControllerArgv tf = GoResult.ok argv) :
    (tf.cluster.spec.externalDNS = none → "--watch-ingress=false" ∈ argv)
      ∧ ∀ c, tf.cluster.spec.externalDNS = some c →
          ((BoolValue c.watchIngress = true → "--watch-ingress=false" ∉ argv)
            ∧ (BoolValue c.watchIngress = false →
                "--watch-ingress=false" ∈ argv)) := by
  obtain ⟨dnsPart, hdns, rfl⟩ := dnsControllerArgv_ok_elim tf argv h
  refine ⟨?_, ?_⟩
  · intro hn
    simp [watchIngressArgs, hn]
  · intro c hc
    refine ⟨?_, ?_⟩
    · intro hwi hmem
      rcases mem_dnsArgv_cases tf _ _ h hmem with
        h1 | h2 | ⟨d, hd, h3⟩ | h4 | h5 | h6 | h7
      · exact absurd h1 (by decide)
      · rw [hc] at h2
        simp [watchIngressArgs, hwi] at h2
      · rcases providerDnsFlags_ok_cases _ _ hd with rfl | rfl | ⟨server, rfl⟩
        · exact absurd (List.mem_singleton.mp h3) (by decide)
        · exact absurd (List.mem_singleton.mp h3) (by decide)
        · rcases List.mem_cons.mp h3 with h3' | h3'
          · exact absurd h3' (by decide)
          · exact append_ne_of_take_ne "--dns-server=" server _ (by decide)
              (List.mem_singleton.mp h3').symm
      · exact absurd (mem_gossipArgs _ _ h4) (by decide)
      · rcases mem_zoneArgs _ _ h5 with h5 | h5
        · exact append_ne_of_take_ne "--zone=" _ _ (by decide) h5.symm
        · exact append_ne_of_take_ne "--zone=*/" _ _ (by decide) h5.symm
      · exact absurd h6 (by decide)
      · exact absurd h7 (by decide)
    · intro hwi
      simp [watchIngressArgs, hc, hwi]

/-- Witness for C4: the no-config case at the concrete AWS context. -/
theorem dnsControllerArgv_watchIngress_witness :
    "--watch-ingress=false" ∈
      (["/usr/bin/dns-controller", "--watch-ingress=false",
        "--dns=aws-route53", "--zone=*/*", "-v=2"] : List String) :=
  (dnsControllerArgv_watchIngress awsPlainCtx _
    dnsControllerArgv_awsPlainCtx_eval).1 rfl

/-- A two-token pattern ending a list, up to one trailing element, is a
sublist of the whole. -/
theorem pair_sublist_append (A : List String) (tok wc v : String) :
    List.Sublist [tok, wc] ((A ++ [tok]) ++ [wc, v]) := by
  have h1 : List.Sublist [tok, wc] ([tok] ++ [wc, v]) :=
    List.Sublist.cons₂ tok (List.Sublist.cons₂ wc (List.nil_sublist [v]))
  have h4 : (A ++ [tok]) ++ [wc, v] = A ++ ([tok] ++ [wc, v]) :=
    List.append_assoc A [tok] [wc, v]
  rw [h4]
  exact h1.trans (List.sublist_append_right A _)

/-- C5: in every successful DNS-controller argv the wildcard `--zone=*/*`
is present; a non-empty zone with a dot contributes `--zone=<zone>` before
the wildcard, a non-empty zone without a dot contributes `--zone=*/<zone>`
before the wildcard, and an empty zone contributes no zone-specific
token. -/
theorem dnsControllerArgv_zone_flags (tf : TemplateFunctions)
    (argv : List String) (h : DnsControllerArgv tf = GoResult.ok argv) :
    ("--zone=*/*" ∈ argv)
      ∧ (tf.cluster.spec.dnsZone ≠ "" →
          containsDot tf.cluster.spec.dnsZone = true →
          List.Sublist ["--zone=" ++ tf.cluster.spec.dnsZone, "--zone=*/*"] argv)
      ∧ (tf.cluster.spec.dnsZone ≠ "" →
          containsDot tf.cluster.spec.dnsZone = false →
          List.Sublist ["--zone=*/" ++ tf.cluster.spec.dnsZone, "--zone=*/*"] argv)
      ∧ (tf.cluster.spec.dnsZone = "" →
          "--zone=" ∉ argv ∧ "--zone=*/" ∉ argv) := by
  obtain ⟨dnsPart, hdns, rfl⟩ := dnsControllerArgv_ok_elim tf argv h
  refine ⟨by simp, ?_, ?_, ?_⟩
  · intro hz hd
    have hzone : zoneArgs tf.cluster.spec.dnsZone
        = ["--zone=" ++ tf.cluster.spec.dnsZone] := by simp [zoneArgs, hz, hd]
    rw [hzone]
    exact pair_sublist_append _ _ _ _
  · intro hz hd
    have hzone : zoneArgs tf.cluster.spec.dnsZone
        = ["--zone=*/" ++ tf.cluster.spec.dnsZone] := by simp [zoneArgs, hz, hd]
    rw [hzone]
    exact pair_sublist_append _ _ _ _
  · intro hz
    constructor
    · intro hmem
      rcases mem_dnsArgv_cases tf _ _ h hmem with
        h1 | h2 | ⟨d, hd, h3⟩ | h4 | h5 | h6 | h7
      · exact absurd h1 (by decide)
      · exact absurd (mem_watchIngressArgs _ _ h2) (by decide)
      · rcases providerDnsFlags_ok_cases _ _ hd with rfl | rfl | ⟨server, rfl⟩
        · exact absurd (List.mem_singleton.mp h3) (by decide)
        · exact absurd (List.mem_singleton.mp h3) (by decide)
        · rcases List.mem_cons.mp h3 with h3' | h3'
          · exact absurd h3' (by decide)
          · exact append_ne_of_take_ne "--dns-server=" server _ (by decide)
              (List.mem_singleton.mp h3').symm
      · exact absurd (mem_gossipArgs _ _ h4) (by decide)
      · rw [hz] at h5
        simp [zoneArgs] at h5
      · exact absurd h6 (by decide)
      · exact absurd h7 (by decide)
    · intro hmem
      rcases mem_dnsArgv_cases tf _ _ h hmem with
        h1 | h2 | ⟨d, hd, h3⟩ | h4 | h5 | h6 | h7
      · exact absurd h1 (by decide)
      · exact absurd (mem_watchIngressArgs _ _ h2) (by decide)
      · rcases providerDnsFlags_ok_cases _ _ hd with rfl | rfl | ⟨server, rfl⟩
        · exact absurd (List.mem_singleton.mp h3) (by decide)
        · exact absurd (List.mem_singleton.mp h3) (by decide)
        · rcases List.mem_cons.mp h3 with h3' | h3'
          · exact absurd h3' (by decide)
          · exact append_ne_of_take_ne "--dns-server=" server _ (by decide)
              (List.mem_singleton.mp h3').symm
      · exact absurd (mem_gossipArgs _ _ h4) (by decide)
      · rw [hz] at h5
        simp [zoneArgs] at h5
      · exact absurd h6 (by decide)
      · exact absurd h7 (by decide)

/-- Concrete evaluation on the GCE context with id-style zone Z123. -/
theorem dnsControllerArgv_gceProjCtx_eval :
    DnsControllerArgv gceProjCtx
      = GoResult.ok ["/usr/bin/dns-controller", "--watch-ingress=false",
          "--dns=google-clouddns", "--zone=*/Z123", "--zone=*/*", "-v=2"] := by
  decide

/-- Witness for C5: id-style zone Z123 yields its zone token followed by
the wildcard. -/
theorem dnsControllerArgv_zone_flags_witness :
    List.Sublist ["--zone=*/" ++ "Z123", "--zone=*/*"]
      ["/usr/bin/dns-controller", "--watch-ingress=false",
        "--dns=google-clouddns", "--zone=*/Z123", "--zone=*/*", "-v=2"] :=
  (dnsControllerArgv_zone_flags gceProjCtx _
    dnsControllerArgv_gceProjCtx_eval).2.2.1 (by decide) (by decide)

/-- C6: instance-group lookup finds a group with the requested name exactly
when one exists, and otherwise fails with the not-found error carrying the
requested name. -/
theorem getInstanceGroup_lookup (tf : TemplateFunctions) (name : String) :
    ((∃ ig ∈ tf.instanceGroups, ig.name = name) →
      ∃ ig, GetInstanceGroup tf name = GoResult.ok ig ∧ ig.name = name)
    ∧ ((∀ ig ∈ tf.instanceGroups, ig.name ≠ name) →
      GetInstanceGroup tf name
        = GoResult.err ("InstanceGroup \"" ++ name ++ "\" not found")) :=
  ⟨fun h => getInstanceGroupLoop_found name _ h,
   fun h => getInstanceGroupLoop_not_found name _ h⟩

/-- Witness for C6: in the context holding master-1 and node-1, looking up
node-1 succeeds with a matching record and looking up node-2 fails with
the not-found error carrying node-2. -/
theorem getInstanceGroup_lookup_witness :
    (∃ ig, GetInstanceGroup igCtx "node-1" = GoResult.ok ig
        ∧ ig.name = "node-1")
      ∧ GetInstanceGroup igCtx "node-2"
        = GoResult.err "InstanceGroup \"node-2\" not found" :=
  ⟨(getInstanceGroup_lookup igCtx "node-1").1
      ⟨{ name := "node-1", role := "Node" }, by decide, rfl⟩,
   (getInstanceGroup_lookup igCtx "node-2").2 (by decide)⟩

/-- C10: when several groups carry the requested name, the lookup returns
the first matching group in collection order, without error. -/
theorem getInstanceGroup_first_match (tf : TemplateFunctions) (name : String)
    (pre rest : List InstanceGroup) (ig : InstanceGroup)
    (hsplit : tf.instanceGroups = pre ++ ig :: rest)
    (hpre : ∀ g ∈ pre, g.name ≠ name)
    (hig : ig.name = name)
    (_hdup : ∃ g ∈ rest, g.name = name) :
    GetInstanceGroup tf name = GoResult.ok ig := by
  unfold GetInstanceGroup
  rw [hsplit, getInstanceGroupLoop_skip name pre _ hpre]
  simp [getInstanceGroupLoop, hig]

/-- Witness for C10 on a context with a duplicated name: the first
node-1 record, distinguished by its role, is returned. -/
theorem getInstanceGroup_first_match_witness :
    GetInstanceGroup igDupCtx "node-1"
      = GoResult.ok { name := "node-1", role := "Node" } :=
  getInstanceGroup_first_match igDupCtx "node-1"
    [{ name := "master-1", role := "Master" }]
    [{ name := "node-1", role := "Shadow" }]
    { name := "node-1", role := "Node" }
    rfl (by decide) rfl
    ⟨{ name := "node-1", role := "Shadow" }, by decide, rfl⟩
